import Mathlib

/-!
Shallow embedding of `src/main.rs` of the oarfish quantifier driver:
the argument record, the alignment-filter construction (`get_filter_opts`),
the aligner construction decision logic (`get_aligner_from_args`), the
FASTA sniffing helper (`is_fasta`), the transcript-table construction and
the quantification-path dispatch in `main`.

Numeric conventions: `u32` and `usize` fields become `Nat` (all uses here
are value moves, comparisons and saturating subtraction, which `Nat`
subtraction models exactly); `i64` becomes `Int`; `f32`/`f64` fields are
only ever copied from the arguments into the filter record (never subjected
to arithmetic), so they are carried as `ℚ` with the exact literal values of
the source (`0.95`, `0.5`, `0`).
-/

namespace Oarfish

/-- Strand enumeration of `bio_types::strand::Strand` (Forward, Reverse,
Unknown). -/
inductive Strand
  | Forward
  | Reverse
  | Unknown
deriving DecidableEq, Repr

/-- The filter-group presets of `prog_opts::FilterGroup` as consumed by
`get_filter_opts` in `main.rs`. -/
inductive FilterGroup
  | NoFilters
  | NanocountFilters
deriving DecidableEq, Repr

/-- The sequencing technologies of `prog_opts::SequencingTech` as matched
in `get_aligner_from_args`. -/
inductive SequencingTech
  | OntCDNA
  | OntDRNA
  | PacBio
  | PacBioHifi
deriving DecidableEq, Repr

/-- The program-argument record `prog_opts::Args`, restricted to the fields
read or written by `main.rs` (every `args.<field>` access occurring in the
source). Optional per-filter thresholds are `Option` values: `some v` means
the user explicitly provided `v` on the command line. -/
structure Args where
  reference : Option String
  index_out : Option String
  seq_tech : Option SequencingTech
  threads : Nat
  best_n : Nat
  filter_group : Option FilterGroup
  five_prime_clip : Option Nat
  three_prime_clip : Option Int
  score_threshold : Option ℚ
  min_aligned_fraction : Option ℚ
  min_aligned_len : Option Nat
  strand_filter : Strand
  model_coverage : Bool
  growth_rate : ℚ
  write_assignment_probs : Option String
  quiet : Bool
  verbose : Bool
  alignments : Option String
  single_cell : Bool
  bin_width : Nat
  reads : Option (List String)
deriving DecidableEq, Repr

/-- Modelled from the spec: the per-filter argument accessor
`provided_or_*` of `prog_opts` (not under `src/`): the user-provided value
overrides the given default ("any may be disabled by setting a permissive
threshold"; "override individual parameters if the user passed them in
explicitly"). The logging side channel is irrelevant to the value. -/
def providedOr {α : Type} (o : Option α) (d : α) : α :=
  o.getD d

/-- Modelled from the spec: the per-filter argument accessor `try_as_*` of
`prog_opts` (not under `src/`), used in the no-preset branch of
`get_filter_opts` where it may fail (`?` propagation): yields the
explicitly configured value, an error otherwise. -/
def tryAs {α : Type} (o : Option α) : Except String α :=
  match o with
  | some v => Except.ok v
  | Option.none => Except.error "filter parameter was not provided"

/-- The alignment-filter record `AlignmentFilters` of
`util::oarfish_types`, with exactly the fields set by the builder calls in
`get_filter_opts` (`main.rs` lines 263-274, 298-309, 313-324). -/
structure AlignmentFilters where
  five_prime_clip : Nat
  three_prime_clip : Int
  score_threshold : ℚ
  min_aligned_fraction : ℚ
  min_aligned_len : Nat
  which_strand : Strand
  model_coverage : Bool
  logistic_growth_rate : ℚ
  write_assignment_probs : Bool
  write_assignment_probs_type : Option String
deriving DecidableEq, Repr

/-- `get_filter_opts` of `main.rs` (lines 238-327): builds the
`AlignmentFilters` from the arguments, per filter group.
`u32::MAX = 4294967295`, `i64::MAX = 9223372036854775807`. -/
def get_filter_opts (args : Args) : Except String AlignmentFilters :=
  match args.filter_group with
  | some FilterGroup.NoFilters =>
      Except.ok
        { five_prime_clip := providedOr args.five_prime_clip 4294967295
          three_prime_clip := providedOr args.three_prime_clip 9223372036854775807
          score_threshold := providedOr args.score_threshold 0
          min_aligned_fraction := providedOr args.min_aligned_fraction 0
          min_aligned_len := providedOr args.min_aligned_len 1
          which_strand := args.strand_filter
          model_coverage := args.model_coverage
          logistic_growth_rate := args.growth_rate
          write_assignment_probs := args.write_assignment_probs.isSome
          write_assignment_probs_type := args.write_assignment_probs }
  | some FilterGroup.NanocountFilters =>
      Except.ok
        { five_prime_clip := providedOr args.five_prime_clip 4294967295
          three_prime_clip := providedOr args.three_prime_clip 50
          score_threshold := providedOr args.score_threshold (95 / 100)
          min_aligned_fraction := providedOr args.min_aligned_fraction (1 / 2)
          min_aligned_len := providedOr args.min_aligned_len 50
          which_strand := Strand.Forward
          model_coverage := args.model_coverage
          logistic_growth_rate := args.growth_rate
          write_assignment_probs := args.write_assignment_probs.isSome
          write_assignment_probs_type := args.write_assignment_probs }
  | Option.none =>
      match tryAs args.five_prime_clip with
      | Except.error e => Except.error e
      | Except.ok fpc =>
      match tryAs args.three_prime_clip with
      | Except.error e => Except.error e
      | Except.ok tpc =>
      match tryAs args.score_threshold with
      | Except.error e => Except.error e
      | Except.ok st =>
      match tryAs args.min_aligned_fraction with
      | Except.error e => Except.error e
      | Except.ok maf =>
      match tryAs args.min_aligned_len with
      | Except.error e => Except.error e
      | Except.ok mal =>
      Except.ok
        { five_prime_clip := fpc
          three_prime_clip := tpc
          score_threshold := st
          min_aligned_fraction := maf
          min_aligned_len := mal
          which_strand := args.strand_filter
          model_coverage := args.model_coverage
          logistic_growth_rate := args.growth_rate
          write_assignment_probs := args.write_assignment_probs.isSome
          write_assignment_probs_type := args.write_assignment_probs }

/-- `is_fasta` of `main.rs` (lines 45-55), over a file-system model: the
file either fails to open (`Option.none`) or opens with the given byte
contents. A failed open yields `Ok(false)`; `read_exact` of one byte fails
on an empty file (`Err`); otherwise the first byte is compared against
`b'>' = 62` and `b'@' = 64`. -/
def is_fasta (contents : Option (List Nat)) : Except Unit Bool :=
  match contents with
  | Option.none => Except.ok false
  | some [] => Except.error ()
  | some (b :: _) => Except.ok (b == 62 || b == 64)

/-- The `is_fasta(&ref_file).unwrap_or(false)` test of
`get_aligner_from_args` (line 71). -/
def is_fasta_or_false (contents : Option (List Nat)) : Bool :=
  (is_fasta contents).toOption.getD false

/-- The aligner configuration produced by the successful paths of
`get_aligner_from_args`: the matched technology preset, the indexing
thread count, the optional index-output path, and the mapping options set
after construction (`best_n` from the arguments, `seed = 11`). The
minimap2 index itself, header assembly and digest computation are external
FFI effects not modelled. -/
structure AlignerInfo where
  tech : SequencingTech
  idx_threads : Nat
  idx_output : Option String
  best_n : Nat
  seed : Nat
deriving DecidableEq, Repr

/-- `get_aligner_from_args` of `main.rs` (lines 57-236), as a state-passing
function on `Args` (the Rust function takes `&mut Args`): returns the
possibly-updated arguments together with the result. `ref_contents`
models the bytes of the reference file for the `is_fasta` sniff. With no
reference the source panics before touching `args` (`expect` at line 63),
modelled as an error with the arguments unchanged. Otherwise, when the
reference is not a FASTA file and `--index-out` was set, `index_out` is
cleared (lines 85-90); then a missing sequencing technology aborts
(`anyhow::bail!`, lines 144-146), and any provided technology yields an
aligner. `idx_threads = max (threads - thread_sub) 1` models
`saturating_sub(thread_sub).max(1)` (line 97). -/
def get_aligner_from_args (args : Args) (ref_contents : Option (List Nat)) :
    Args × Except String AlignerInfo :=
  match args.reference with
  | Option.none => (args, Except.error "must provide reference sequence")
  | some _ =>
      let fasta := is_fasta_or_false ref_contents
      let args1 :=
        if fasta then args
        else if args.index_out.isSome then { args with index_out := Option.none } else args
      let thread_sub := if fasta then 1 else 0
      let idx_threads := max (args1.threads - thread_sub) 1
      let idx_output := args1.index_out
      match args1.seq_tech with
      | Option.none =>
          (args1, Except.error "sequencing tech must be provided in read mode, but it was not!")
      | some tech =>
          (args1,
            Except.ok
              { tech := tech
                idx_threads := idx_threads
                idx_output := idx_output
                best_n := args1.best_n
                seed := 11 })

/-- Modelled from the spec: `TranscriptInfo` of `util::oarfish_types` (not
under `src/`) — the per-transcript record created at startup, carrying the
reference length and "ordered sequence of coverage-bin counters (present
only when bias modeling is enabled)". `bins` is `some w` when the record
was created with coverage bins of width `w`, `Option.none` otherwise. -/
structure TranscriptInfo where
  len : Nat
  bins : Option Nat
deriving DecidableEq, Repr

/-- Modelled from the spec: `TranscriptInfo::with_len` — a record with the
given length and no coverage bins. -/
def TranscriptInfo.with_len (l : Nat) : TranscriptInfo :=
  { len := l, bins := Option.none }

/-- Modelled from the spec: `TranscriptInfo::with_len_and_bin_width` — a
record with the given length and coverage bins of the given width. -/
def TranscriptInfo.with_len_and_bin_width (l w : Nat) : TranscriptInfo :=
  { len := l, bins := some w }

/-- The transcript-table construction loop of `main` (`main.rs` lines
399-417): one `TranscriptInfo` and one name per reference sequence of the
resolved header, in header order; with coverage bins (width
`args.bin_width`) exactly when `args.model_coverage` is set. The header is
its resolved reference-sequence list: (name, length) pairs. -/
def build_txps (header : List (String × Nat)) (model_coverage : Bool) (bin_width : Nat) :
    List TranscriptInfo × List String :=
  if model_coverage then
    (header.map (fun r => TranscriptInfo.with_len_and_bin_width r.2 bin_width),
      header.map (fun r => r.1))
  else
    (header.map (fun r => TranscriptInfo.with_len r.2),
      header.map (fun r => r.1))

/-- The three quantification paths dispatched at the end of `main`
(`main.rs` lines 423-473). -/
inductive QuantPath
  | singleCell
  | bulkBam
  | bulkRaw
deriving DecidableEq, Repr

/-- The dispatch decision of `main` (lines 423, 452, 462): single-cell
quantification when `--single-cell` is set, bulk-from-BAM when an alignment
file was supplied, bulk-from-raw-reads otherwise. -/
def dispatch (args : Args) : QuantPath :=
  if args.single_cell then QuantPath.singleCell
  else if args.alignments.isSome then QuantPath.bulkBam
  else QuantPath.bulkRaw

/-- The BAM-decompression worker count of `main` (lines 363-379): in
single-cell mode a `match` on the thread count (`1..=6 => 1`, `7 | 8 => 2`,
`_ => 3`; note `0` falls into the wildcard arm), in bulk mode
`1.max(threads.saturating_sub(1))`. -/
def decomp_threads (single_cell : Bool) (threads : Nat) : Nat :=
  if single_cell then
    if 1 ≤ threads ∧ threads ≤ 6 then 1
    else if threads = 7 ∨ threads = 8 then 2
    else 3
  else
    max 1 (threads - 1)

/-- The adjusted worker thread count in single-cell mode (line 383):
`args.threads = 1.max(args.threads.saturating_sub(decomp_threads))`. -/
def sc_worker_threads (threads : Nat) : Nat :=
  max 1 (threads - decomp_threads true threads)

/-- Modelled from the spec: the four bias-model variants the specification
says the configuration record recognizes
(`bias_model ∈ \x7bnone, empirical, binomial, logistic\x7d`). -/
inductive BiasModelSpec
  | noneModel
  | empirical
  | binomial
  | logistic
deriving DecidableEq, Repr, Fintype

/-! ## Helper lemmas and concrete argument records -/

/-- A concrete argument record used to build inputs for witnesses and
counterexamples. -/
def baseArgs : Args :=
  { reference := Option.none
    index_out := Option.none
    seq_tech := Option.none
    threads := 1
    best_n := 100
    filter_group := Option.none
    five_prime_clip := Option.none
    three_prime_clip := Option.none
    score_threshold := Option.none
    min_aligned_fraction := Option.none
    min_aligned_len := Option.none
    strand_filter := Strand.Unknown
    model_coverage := false
    growth_rate := 1
    write_assignment_probs := Option.none
    quiet := false
    verbose := false
    alignments := Option.none
    single_cell := false
    bin_width := 100
    reads := Option.none }

/-- Whenever `get_filter_opts` succeeds, the strand of the built filters is
`Forward` in the Nanocount preset and the user-configured strand otherwise,
and the coverage flag and growth rate are copied from the arguments. -/
lemma get_filter_opts_ok_fields (args : Args) (f : AlignmentFilters)
    (h : get_filter_opts args = Except.ok f) :
    f.which_strand = (if args.filter_group = some FilterGroup.NanocountFilters
      then Strand.Forward else args.strand_filter) ∧
    f.model_coverage = args.model_coverage ∧
    f.logistic_growth_rate = args.growth_rate := by
  cases hfg : args.filter_group with
  | none =>
      rcases h5 : args.five_prime_clip with _ | v5 <;>
        rcases h3 : args.three_prime_clip with _ | v3 <;>
          rcases hs : args.score_threshold with _ | vs <;>
            rcases hm : args.min_aligned_fraction with _ | vm <;>
              rcases hl : args.min_aligned_len with _ | vl <;>
                simp [get_filter_opts, tryAs, hfg, h5, h3, hs, hm, hl] at h <;>
                  simp [hfg, ← h]
  | some g =>
      cases g <;> (simp [get_filter_opts, hfg] at h; simp [hfg, ← h])

/-! ## C1: strand of the built filters -/

/-- Arguments selecting the Nanocount filter preset while configuring the
`Reverse` strand filter. -/
def c1Args : Args :=
  { baseArgs with
    filter_group := some FilterGroup.NanocountFilters
    strand_filter := Strand.Reverse }

/-- C1 counterexample: with the Nanocount filter group and a user-configured
`Reverse` strand, `get_filter_opts` builds filters whose strand is *not* the
user-configured strand (it is hard-coded to `Forward` at `main.rs` line
304), refuting the claim that the strand setting equals the configured
strand in every filter-group mode. -/
theorem C1_strand_counterexample :
    ∃ f, get_filter_opts c1Args = Except.ok f ∧
      f.which_strand ≠ c1Args.strand_filter ∧ f.which_strand = Strand.Forward := by
  exact ⟨_, rfl, by decide, by decide⟩

/-- C1 (amended): whenever `get_filter_opts` succeeds, the strand of the
built `AlignmentFilters` equals the user-configured `args.strand_filter` in
the `NoFilters` mode and in the no-group mode, while in the
`NanocountFilters` mode it is always `Forward`, regardless of the
configured strand. -/
theorem C1_strand_amended (args : Args) (f : AlignmentFilters)
    (h : get_filter_opts args = Except.ok f) :
    (args.filter_group = some FilterGroup.NanocountFilters →
      f.which_strand = Strand.Forward) ∧
    (args.filter_group ≠ some FilterGroup.NanocountFilters →
      f.which_strand = args.strand_filter) := by
  have hf := (get_filter_opts_ok_fields args f h).1
  constructor
  · intro hg; rw [hg] at hf; simpa using hf
  · intro hg; rw [if_neg hg] at hf; exact hf

/-- Concrete arguments in the `NoFilters` mode with a `Reverse` strand
filter. -/
def c1NoFiltArgs : Args :=
  { baseArgs with
    filter_group := some FilterGroup.NoFilters
    strand_filter := Strand.Reverse }

/-- The filter record `get_filter_opts` builds from `c1NoFiltArgs`. -/
def c1NoFiltExpected : AlignmentFilters :=
  { five_prime_clip := 4294967295
    three_prime_clip := 9223372036854775807
    score_threshold := 0
    min_aligned_fraction := 0
    min_aligned_len := 1
    which_strand := Strand.Reverse
    model_coverage := false
    logistic_growth_rate := 1
    write_assignment_probs := false
    write_assignment_probs_type := Option.none }

/-- C1 witness: the amended theorem applied at concrete arguments in the
`NoFilters` mode with a `Reverse` strand filter. -/
theorem C1_strand_witness : c1NoFiltExpected.which_strand = Strand.Reverse :=
  (C1_strand_amended c1NoFiltArgs c1NoFiltExpected rfl).2 (by decide)

/-! ## C2: bias-model selection in the filter configuration -/

/-- C2 counterexample: no assignment of argument records to the four
spec-claimed bias-model variants can make the variants distinguishable
through the coverage-model selector of the built filters — the
configuration consumed when building the alignment filters carries only the
boolean `model_coverage` flag (at most two selectable settings, three
outcomes counting build failure), so a four-variant `bias_model` option is
not selectable from it. -/
theorem C2_bias_model_counterexample :
    ¬ ∃ sel : BiasModelSpec → Args,
      Function.Injective
        (fun m => (get_filter_opts (sel m)).toOption.map AlignmentFilters.model_coverage) := by
  rintro ⟨sel, hinj⟩
  have hle : Fintype.card BiasModelSpec ≤ Fintype.card (Option Bool) :=
    Fintype.card_le_of_injective _ hinj
  have h1 : Fintype.card BiasModelSpec = 4 := rfl
  have h2 : Fintype.card (Option Bool) = 3 := rfl
  omega

/-- C2 (amended): the configuration consumed when building the alignment
filters selects bias handling through the boolean `model_coverage` flag and
the numeric `logistic_growth_rate`, both copied verbatim from the
arguments into the built filters; there is no four-variant `bias_model`
option. -/
theorem C2_bias_config_amended (args : Args) (f : AlignmentFilters)
    (h : get_filter_opts args = Except.ok f) :
    f.model_coverage = args.model_coverage ∧
    f.logistic_growth_rate = args.growth_rate :=
  ⟨(get_filter_opts_ok_fields args f h).2.1,
    (get_filter_opts_ok_fields args f h).2.2⟩

/-- C2 witness: the amended theorem applied at the concrete `NoFilters`
arguments. -/
theorem C2_bias_config_witness :
    c1NoFiltExpected.model_coverage = false ∧
    c1NoFiltExpected.logistic_growth_rate = 1 := by
  have h := C2_bias_config_amended c1NoFiltArgs c1NoFiltExpected rfl
  simpa [c1NoFiltArgs, baseArgs] using h

/-! ## C3: transcript-table construction -/

/-- C3: `build_txps` makes exactly one `TranscriptInfo` per reference
sequence of the resolved header, in header order and with the header's
length; the record carries coverage bins (of the configured bin width) if
and only if coverage/bias modeling is enabled. -/
theorem C3_transcript_table (header : List (String × Nat)) (mc : Bool) (bw : Nat) :
    (build_txps header mc bw).1.length = header.length ∧
    (∀ i : Nat, ((build_txps header mc bw).1[i]?).map TranscriptInfo.len
      = (header[i]?).map Prod.snd) ∧
    (∀ i : Nat, ((build_txps header mc bw).1[i]?).map TranscriptInfo.bins
      = (header[i]?).map (fun _ => if mc then some bw else Option.none)) := by
  refine ⟨?_, fun i => ?_, fun i => ?_⟩
  · cases mc <;> simp [build_txps]
  · cases mc <;> cases h : header[i]? <;>
      simp [build_txps, TranscriptInfo.with_len, TranscriptInfo.with_len_and_bin_width,
        List.getElem?_map, h]
  · cases mc <;> cases h : header[i]? <;>
      simp [build_txps, TranscriptInfo.with_len, TranscriptInfo.with_len_and_bin_width,
        List.getElem?_map, h]

/-! ## C4: NoFilters permissive defaults and explicit overrides -/

/-- C4: in the `NoFilters` group, each filter threshold defaults to its
permissive value (5' clip `u32::MAX`, 3' clip `i64::MAX`, score-threshold
fraction `0`, min aligned fraction `0`, min aligned length `1`) when the
user provides no explicit value, and any explicitly provided value
overrides the permissive default. -/
theorem C4_nofilters_defaults (args : Args)
    (h : args.filter_group = some FilterGroup.NoFilters) :
    ∃ f, get_filter_opts args = Except.ok f ∧
      (args.five_prime_clip = Option.none → f.five_prime_clip = 4294967295) ∧
      (∀ v, args.five_prime_clip = some v → f.five_prime_clip = v) ∧
      (args.three_prime_clip = Option.none → f.three_prime_clip = 9223372036854775807) ∧
      (∀ v, args.three_prime_clip = some v → f.three_prime_clip = v) ∧
      (args.score_threshold = Option.none → f.score_threshold = 0) ∧
      (∀ v, args.score_threshold = some v → f.score_threshold = v) ∧
      (args.min_aligned_fraction = Option.none → f.min_aligned_fraction = 0) ∧
      (∀ v, args.min_aligned_fraction = some v → f.min_aligned_fraction = v) ∧
      (args.min_aligned_len = Option.none → f.min_aligned_len = 1) ∧
      (∀ v, args.min_aligned_len = some v → f.min_aligned_len = v) := by
  refine
    ⟨{ five_prime_clip := providedOr args.five_prime_clip 4294967295
       three_prime_clip := providedOr args.three_prime_clip 9223372036854775807
       score_threshold := providedOr args.score_threshold 0
       min_aligned_fraction := providedOr args.min_aligned_fraction 0
       min_aligned_len := providedOr args.min_aligned_len 1
       which_strand := args.strand_filter
       model_coverage := args.model_coverage
       logistic_growth_rate := args.growth_rate
       write_assignment_probs := args.write_assignment_probs.isSome
       write_assignment_probs_type := args.write_assignment_probs },
      by simp [get_filter_opts, h], ?_, ?_, ?_, ?_, ?_, ?_, ?_, ?_, ?_, ?_⟩ <;>
    first
      | (intro hv; simp [providedOr, hv])
      | (intro v hv; simp [providedOr, hv])

/-- Concrete arguments in the `NoFilters` group with two explicit
overrides. -/
def c4Args : Args :=
  { baseArgs with
    filter_group := some FilterGroup.NoFilters
    five_prime_clip := some 7
    min_aligned_len := some 25 }

/-- The filter record `get_filter_opts` builds from `c4Args`: the explicit
overrides (5' clip `7`, min aligned length `25`) and the permissive
defaults everywhere else. -/
def c4Expected : AlignmentFilters :=
  { five_prime_clip := 7
    three_prime_clip := 9223372036854775807
    score_threshold := 0
    min_aligned_fraction := 0
    min_aligned_len := 25
    which_strand := Strand.Unknown
    model_coverage := false
    logistic_growth_rate := 1
    write_assignment_probs := false
    write_assignment_probs_type := Option.none }

/-- C4 witness: the theorem applied at `c4Args`; the built filters keep
the permissive defaults for the unset thresholds and the explicit values
for the set ones. -/
theorem C4_nofilters_witness :
    get_filter_opts c4Args = Except.ok c4Expected ∧
    c4Expected.five_prime_clip = 7 ∧
    c4Expected.three_prime_clip = 9223372036854775807 ∧
    c4Expected.min_aligned_len = 25 := by
  obtain ⟨f, hok, -, h2, h3, -, -, -, -, -, -, h10⟩ := C4_nofilters_defaults c4Args rfl
  have hfe : (Except.ok c4Expected : Except String AlignmentFilters) = Except.ok f :=
    (show get_filter_opts c4Args = Except.ok c4Expected from rfl).symm.trans hok
  injection hfe with hfe'
  subst hfe'
  exact ⟨rfl, h2 7 rfl, h3 rfl, h10 25 rfl⟩

/-! ## C5: missing sequencing technology is a fatal configuration error -/

/-- C5: in read-based mode, whenever a reference was provided but no
sequencing technology was specified, `get_aligner_from_args` returns an
error (the `anyhow::bail!` of `main.rs` lines 144-146), regardless of the
reference-file contents — so no aligner is ever produced. -/
theorem C5_missing_seq_tech_error (args : Args) (rc : Option (List Nat))
    (h1 : args.reference.isSome = true) (h2 : args.seq_tech = Option.none) :
    (get_aligner_from_args args rc).2 =
      Except.error "sequencing tech must be provided in read mode, but it was not!" := by
  obtain ⟨r, hr⟩ := Option.isSome_iff_exists.mp h1
  cases hf : is_fasta_or_false rc <;>
    cases hio : args.index_out <;>
      simp [get_aligner_from_args, hr, hf, hio, h2]

/-- Concrete read-mode arguments with a reference but no sequencing
technology. -/
def c5Args : Args := { baseArgs with reference := some "txome.fa" }

/-- C5 witness: the theorem applied at `c5Args` with an unreadable
reference file. -/
theorem C5_missing_seq_tech_witness :
    (get_aligner_from_args c5Args Option.none).2 =
      Except.error "sequencing tech must be provided in read mode, but it was not!" :=
  C5_missing_seq_tech_error c5Args Option.none rfl rfl

/-! ## C6: quantification-path dispatch -/

/-- C6: the driver dispatches every configuration to exactly one of the
three quantification paths: single-cell when `--single-cell` is set,
bulk-from-BAM when an alignment file is supplied and single-cell mode is
not set, and bulk-from-raw-reads otherwise; the characterizations are
mutually exclusive and exhaustive. -/
theorem C6_dispatch_trichotomy (args : Args) :
    (dispatch args = QuantPath.singleCell ∨ dispatch args = QuantPath.bulkBam ∨
      dispatch args = QuantPath.bulkRaw) ∧
    (dispatch args = QuantPath.singleCell ↔ args.single_cell = true) ∧
    (dispatch args = QuantPath.bulkBam ↔
      (args.single_cell = false ∧ args.alignments.isSome = true)) ∧
    (dispatch args = QuantPath.bulkRaw ↔
      (args.single_cell = false ∧ args.alignments = Option.none)) := by
  cases hsc : args.single_cell <;> cases hal : args.alignments <;>
    simp [dispatch, hsc, hal]

/-! ## C7: filter construction is a pure function of the arguments -/

/-- C7: `get_filter_opts` is a deterministic function of exactly the
argument fields it reads: any two argument records that agree on the
filter group, the five thresholds, the strand filter, the coverage flag,
the growth rate and the assignment-probs option yield identical results
(in the embedding the Rust `&Args` borrow is a value argument, so the call
cannot modify the arguments). -/
theorem C7_filter_opts_functional (a b : Args)
    (h1 : a.filter_group = b.filter_group)
    (h2 : a.five_prime_clip = b.five_prime_clip)
    (h3 : a.three_prime_clip = b.three_prime_clip)
    (h4 : a.score_threshold = b.score_threshold)
    (h5 : a.min_aligned_fraction = b.min_aligned_fraction)
    (h6 : a.min_aligned_len = b.min_aligned_len)
    (h7 : a.strand_filter = b.strand_filter)
    (h8 : a.model_coverage = b.model_coverage)
    (h9 : a.growth_rate = b.growth_rate)
    (h10 : a.write_assignment_probs = b.write_assignment_probs) :
    get_filter_opts a = get_filter_opts b := by
  simp only [get_filter_opts, h1, h2, h3, h4, h5, h6, h7, h8, h9, h10]

/-- Concrete argument records agreeing on every filter-relevant field but
differing in thread count and read files. -/
def c7aArgs : Args := { baseArgs with filter_group := some FilterGroup.NoFilters, threads := 4 }

/-- Same filter-relevant fields as `c7aArgs`, different irrelevant fields. -/
def c7bArgs : Args :=
  { baseArgs with
    filter_group := some FilterGroup.NoFilters
    threads := 32
    reads := some ["sample.fq"]
    single_cell := true }

/-- C7 witness: the theorem applied at the two concrete records. -/
theorem C7_filter_opts_witness : get_filter_opts c7aArgs = get_filter_opts c7bArgs :=
  C7_filter_opts_functional c7aArgs c7bArgs rfl rfl rfl rfl rfl rfl rfl rfl rfl rfl

/-! ## C8: frame property of `get_aligner_from_args` -/

/-- C8: `get_aligner_from_args` changes at most the `index_out` field of
the arguments, clearing it exactly when the reference does not sniff as a
FASTA file (`is_fasta(...).unwrap_or(false)` is false) and `index_out` was
set; every other field is returned unchanged (the result record below
differs from `args` in no other field). -/
theorem C8_aligner_frame (args : Args) (rc : Option (List Nat))
    (h : args.reference.isSome = true) :
    (get_aligner_from_args args rc).1 =
      { args with
        index_out :=
          if is_fasta_or_false rc = false ∧ args.index_out.isSome = true
          then Option.none else args.index_out } := by
  obtain ⟨r, hr⟩ := Option.isSome_iff_exists.mp h
  obtain ⟨ref, iout, tech, thr, bn, fg, fpc, tpc, st, maf, mal, sf, mc, gr, wap, q, vb, al, sc, bw, rds⟩ := args
  cases hf : is_fasta_or_false rc <;>
    cases iout <;>
      cases tech <;>
        simp_all [get_aligner_from_args]

/-- Concrete arguments: non-FASTA reference, `--index-out` set. -/
def c8Args : Args :=
  { baseArgs with
    reference := some "txome.mmi"
    index_out := some "out.mmi"
    seq_tech := some SequencingTech.OntCDNA }

/-- C8 witness: the theorem applied at `c8Args` with a reference file that
does not open (hence not FASTA): exactly `index_out` is cleared. -/
theorem C8_aligner_frame_witness :
    (get_aligner_from_args c8Args Option.none).1 = { c8Args with index_out := Option.none } := by
  have h := C8_aligner_frame c8Args Option.none rfl
  simpa [is_fasta_or_false, is_fasta] using h

/-! ## C9: decompression and worker thread counts are positive -/

/-- C9: for every configured thread count (including 0), the computed
BAM-decompression worker count is at least 1 in both single-cell and bulk
modes (so `NonZeroUsize::new(...).expect(...)` never fails), and in
single-cell mode the adjusted remaining worker thread count is also at
least 1. -/
theorem C9_thread_counts (sc : Bool) (threads : Nat) :
    1 ≤ decomp_threads sc threads ∧ 1 ≤ sc_worker_threads threads := by
  refine ⟨?_, ?_⟩ <;>
    cases sc <;>
      simp only [decomp_threads, sc_worker_threads] <;>
        split_ifs <;> omega

/-! ## C10: behaviour of `is_fasta` -/

/-- C10: `is_fasta` returns `Ok(true)` exactly when the file opens and its
first byte is `>` (62) or `@` (64); a file that cannot be opened yields
`Ok(false)` rather than an error; an error occurs only when the file opens
but no first byte can be read (the file is empty). -/
theorem C10_is_fasta_spec (c : Option (List Nat)) :
    (is_fasta c = Except.ok true ↔
      ∃ b rest, c = some (b :: rest) ∧ (b = 62 ∨ b = 64)) ∧
    (c = Option.none → is_fasta c = Except.ok false) ∧
    (∀ e : Unit, is_fasta c = Except.error e → c = some []) := by
  rcases c with _ | (_ | ⟨b, rest⟩) <;> simp [is_fasta]

/-- C10 witness: the characterization applied at a file starting with `@`
and at an unopenable file. -/
theorem C10_is_fasta_witness :
    is_fasta (some [64, 65]) = Except.ok true ∧
    is_fasta Option.none = Except.ok false :=
  ⟨(C10_is_fasta_spec (some [64, 65])).1.mpr ⟨64, [65], rfl, Or.inr rfl⟩,
    (C10_is_fasta_spec Option.none).2.1 rfl⟩

end Oarfish
